import Mathlib

/-!
Verification of the `mcp-proxy` session-multiplexing SSE bridge.

This file gives a shallow embedding of the two source files that carry the
bridge's logic:

* `startSSEServer` (the HTTP request handler: CORS/OPTIONS, `/ping`,
  stream-connect with API-key admission, `/messages` posting, session
  registry, close handling);
* `src/bin/mcp-proxy.ts` (`verifyApiKey`, the CLI's `authHandler`, and the
  per-session environment application inside `createServer`).

Asynchronous I/O outcomes (the external `createServer` factory, the result of
`server.connect`/`transport.send`, the delegate auth fetch, the per-session
server's reply to a posted message) enter the embedding as explicit oracle
arguments, so every definition is an executable function of its inputs.
Strings are processed with structural-recursion helpers over `List Char`
(rather than the `String.Pos` loops of core) so that concrete instances
evaluate inside `decide`/`rfl`; the query-string parser follows the code's
use of `URLSearchParams.get` (value after the first `?`, pairs split on `&`,
key before the first `=`, first match wins), without percent-decoding, which
none of the verified properties depend on.
-/

namespace MCPProxy

/-- Drop everything up to and including the first occurrence of `c`;
`none` when `c` does not occur. -/
def afterChar (c : Char) : List Char → Option (List Char)
  | [] => none
  | x :: xs => if x = c then some xs else afterChar c xs

/-- The characters strictly before the first occurrence of `c`
(the whole list when `c` does not occur). -/
def beforeChar (c : Char) : List Char → List Char
  | [] => []
  | x :: xs => if x = c then [] else x :: beforeChar c xs

/-- Split on every occurrence of `c` (like `String.prototype.split`). -/
def splitOnChar (c : Char) : List Char → List (List Char)
  | [] => [[]]
  | x :: xs =>
    if x = c then [] :: splitOnChar c xs
    else
      match splitOnChar c xs with
      | [] => [[x]]
      | y :: ys => (x :: y) :: ys

/-- `URLSearchParams.get k` on a raw request URL: looks after the first `?`,
splits pairs on `&`, matches the key before the first `=`, returns the first
match (empty value for a bare key). -/
def queryParam (url k : String) : Option String :=
  match afterChar '?' url.toList with
  | none => none
  | some q =>
    (((splitOnChar '&' q).filter (fun pair => beforeChar '=' pair = k.toList)).head?).map
      (fun pair => String.mk ((afterChar '=' pair).getD []))

/-- ASCII lower-casing of a string (Node lower-cases header names;
the code looks headers up under `apiKeyHeaderName.toLowerCase()`). -/
def lowerString (s : String) : String :=
  String.mk (s.toList.map Char.toLower)

/-- `s.startsWith p` of JavaScript, evaluable by the kernel. -/
def strStartsWith (s p : String) : Bool :=
  p.toList.isPrefixOf s.toList

/-- `apiKey.substring(0, 8)` of the source (first 8 characters, the whole
string when shorter). -/
def first8 (s : String) : String :=
  String.mk (s.toList.take 8)

/-- The result a custom auth handler resolves with
(`AuthResult` in `startSSEServer`): `userId` is mandatory, `permissions`
and `env` optional. `none` at the call site models the `null` rejection. -/
structure AuthResult where
  userId : String
  permissions : Option (List String)
  env : Option (List (String × String))
deriving DecidableEq

/-- The configuration surface of `startSSEServer` that admission and routing
read: the stream endpoint path, the optional static `apiKey`, the header
name carrying the credential, and the optional custom `authHandler`. -/
structure Config where
  endpoint : String
  apiKey : Option String
  apiKeyHeaderName : String
  authHandler : Option (String → Option AuthResult)

/-- HTTP method of an inbound request (`req.method`). -/
inductive Method where
  | get
  | post
  | options
  | other
deriving DecidableEq

/-- An inbound HTTP request as the handler sees it: method, raw URL, headers
(keys already lower-cased by the HTTP layer, as Node does), and body. -/
structure Request where
  method : Method
  url : String
  headers : List (String × String)
  body : String

/-- `req.headers[name]` — association lookup among the lower-cased header
names. -/
def headerLookup (headers : List (String × String)) (name : String) : Option String :=
  (headers.find? (fun p => p.1 = name)).map (fun p => p.2)

/-- Credential extraction of `startSSEServer` lines 89–105: the configured
header (lower-cased) first; if that is absent/empty and the URL is not
exactly the endpoint, the `apiKey` query parameter; `""` encodes a missing
credential (the code treats `undefined` and `""` alike via `!requestApiKey`). -/
def extractApiKey (cfg : Config) (req : Request) : String :=
  let fromHeader := (headerLookup req.headers (lowerString cfg.apiKeyHeaderName)).getD ""
  if fromHeader = "" ∧ req.url ≠ cfg.endpoint then
    (queryParam req.url "apiKey").getD ""
  else
    fromHeader

/-- What the admission block of `startSSEServer` lines 107–130 decides:
reject for a missing key, reject for an invalid key, or admit carrying the
`userId`/`env` that the block leaves in scope (both stay `undefined` on the
non-handler paths). -/
inductive AdmissionResult where
  | unauthorizedMissing
  | unauthorizedInvalid
  | accepted (userId : Option String) (env : Option (List (String × String)))
deriving DecidableEq

/-- The admission block of `startSSEServer` lines 107–130: a missing key is
rejected unconditionally; a configured `authHandler` alone decides; otherwise
a configured (truthy, hence non-empty) static `apiKey` is compared for string
equality; otherwise every non-empty key is admitted with no identity. -/
def checkAuth (cfg : Config) (key : String) : AdmissionResult :=
  if key = "" then .unauthorizedMissing
  else
    match cfg.authHandler with
    | some handler =>
      match handler key with
      | none => .unauthorizedInvalid
      | some r => .accepted (some r.userId) r.env
    | none =>
      match cfg.apiKey with
      | some k => if k ≠ "" ∧ key ≠ k then .unauthorizedInvalid else .accepted none none
      | none => .accepted none none

/-- The synthetic notification that the connect handler sends right after
`server.connect(transport)` (`startSSEServer` lines 169–173). -/
structure JsonRpcNotification where
  jsonrpc : String
  method : String
  message : String
deriving DecidableEq

/-- The literal payload of `transport.send` at `startSSEServer` line 169. -/
def connectionNotification : JsonRpcNotification :=
  { jsonrpc := "2.0", method := "sse/connection"
  , message := "SSE Connection established" }

/-- A message delivered down one session's push-channel (its SSE stream):
either the synthetic connection notification or traffic produced by handling
a message posted to this session. -/
inductive OutMsg where
  | notif (n : JsonRpcNotification)
  | relayed (payload : String)
deriving DecidableEq

/-- One entry of `activeTransports`: the per-session data stored at
`startSSEServer` line 148, plus the session's push-channel history
(`outbox`), which stands for the transport the entry owns. -/
structure Session where
  userId : Option String
  env : Option (List (String × String))
  apiKey : String
  outbox : List OutMsg
deriving DecidableEq

/-- The `activeTransports` record, keyed by `transport.sessionId`. -/
abbrev Registry := List (String × Session)

/-- Remove the entry for key `k` (`delete activeTransports[k]`). -/
def eraseKey (k : String) (st : Registry) : Registry :=
  st.filter (fun p => p.1 ≠ k)

/-- `activeTransports[k]` lookup. -/
def lookupSession : Registry → String → Option Session
  | [], _ => none
  | p :: st, k => if p.1 = k then some p.2 else lookupSession st k

/-- `activeTransports[k] = s` (JavaScript object assignment: at most one
entry per key). -/
def insertSession (k : String) (s : Session) (st : Registry) : Registry :=
  (k, s) :: eraseKey k st

/-- Rewrite the session stored under `k`, leaving every other key alone. -/
def updateSession (k : String) (f : Session → Session) (st : Registry) : Registry :=
  st.map (fun p => if p.1 = k then (p.1, f p.2) else p)

/-- Externally observable callbacks and deliveries of one handler run. -/
inductive Event where
  | attached (sessionId : String)
  | notifSent (sessionId : String)
  | onConnect (userId : Option String)
  | inbound (sessionId : String) (body : String)
  | closeErrorLogged
  | onClose (sessionId : String)
deriving DecidableEq

/-- The status/body pair the handler writes on the response. For a
successful SSE connect the stream is held open after the `200` the transport
writes; for a handled post the SDK's `handlePostMessage` answers `202`. -/
structure HttpOut where
  status : Nat
  body : String
deriving DecidableEq

/-- How the `await createServer(req, userId, env)` call at line 137 ends:
normally, by throwing a `Response` (whose status/statusText are echoed at
line 140), or by throwing anything else. -/
inductive CreateOutcome where
  | ok
  | errResponse (status : Nat) (statusText : String)
  | errOther
deriving DecidableEq

/-- Oracle inputs of one connect attempt: the `sessionId` the fresh
`SSEServerTransport` generates, the factory outcome, and whether
`server.connect` plus the initial `transport.send` succeed. -/
structure ConnectOracles where
  sessionId : String
  createOutcome : CreateOutcome
  connectOk : Bool
deriving DecidableEq

/-- The stream-connect branch of `startSSEServer` (lines 82–184): extract the
credential, run admission; on rejection answer 401 and leave the registry
alone; on a factory failure answer 500 (or echo a thrown `Response`) with the
registry still untouched; otherwise register the session (line 148), and —
when attach succeeds — send the synthetic connection notification and invoke
`onConnect`. On an attach failure the handler answers 500 but the session
stays registered (only the close event removes it). -/
def handleSSEConnect (cfg : Config) (st : Registry) (req : Request)
    (orc : ConnectOracles) : HttpOut × Registry × List Event :=
  let requestApiKey := extractApiKey cfg req
  match checkAuth cfg requestApiKey with
  | .unauthorizedMissing => (⟨401, "Unauthorized: Missing API key"⟩, st, [])
  | .unauthorizedInvalid => (⟨401, "Unauthorized: Invalid API key"⟩, st, [])
  | .accepted userId env =>
    match orc.createOutcome with
    | .errResponse s t => (⟨s, t⟩, st, [])
    | .errOther => (⟨500, "Error creating server"⟩, st, [])
    | .ok =>
      let st1 := insertSession orc.sessionId ⟨userId, env, requestApiKey, []⟩ st
      if orc.connectOk then
        let st2 := updateSession orc.sessionId
          (fun s => { s with outbox := s.outbox ++ [.notif connectionNotification] }) st1
        (⟨200, ""⟩, st2,
          [.attached orc.sessionId, .notifSent orc.sessionId, .onConnect userId])
      else
        (⟨500, "Error connecting to server"⟩, st1, [.attached orc.sessionId])

/-- Hand a posted body to the transport registered under `sid`; the paired
per-session server's reply (the `respond` oracle, standing for the relay
through the shared upstream client) goes down that same session's
push-channel. -/
def deliverPost (st : Registry) (sid : String) (body : String)
    (respond : String → String) : Registry :=
  updateSession sid
    (fun s => { s with outbox := s.outbox ++ [.relayed (respond body)] }) st

/-- The `POST /messages` branch of `startSSEServer` (lines 186–216): read
`sessionId` from the query (absent or empty is rejected with
`400 "No sessionId"`), reject an unknown id with `400 "No active transport"`,
and otherwise hand the body to that session's transport via
`handlePostMessage` — no authentication is consulted here. -/
def handleMessagePost (st : Registry) (req : Request)
    (respond : String → String) : HttpOut × Registry × List Event :=
  let sid := (queryParam req.url "sessionId").getD ""
  if sid = "" then (⟨400, "No sessionId"⟩, st, [])
  else
    match lookupSession st sid with
    | none => (⟨400, "No active transport"⟩, st, [])
    | some _ =>
      (⟨202, "Accepted"⟩, deliverPost st sid req.body respond, [.inbound sid req.body])

/-- Which branch of the handler an inbound request reaches. -/
inductive Route where
  | cors204
  | ping
  | sseConnect
  | messagePost
  | unhandled
deriving DecidableEq

/-- The dispatch order of the `http.createServer` callback: `OPTIONS` first
(line 71), then `GET /ping` exactly (line 77), then `GET` with the endpoint
as a string prefix of the URL (line 82), then `POST` with `/messages` as a
prefix (line 186), else the unhandled hook. -/
def route (cfg : Config) (req : Request) : Route :=
  if req.method = .options then .cors204
  else if req.method = .get ∧ req.url = "/ping" then .ping
  else if req.method = .get ∧ strStartsWith req.url cfg.endpoint then .sseConnect
  else if req.method = .post ∧ strStartsWith req.url "/messages" then .messagePost
  else .unhandled

/-- The whole `http.createServer` callback as one step function. -/
def handleRequest (cfg : Config) (st : Registry) (req : Request)
    (orc : ConnectOracles) (respond : String → String) :
    HttpOut × Registry × List Event :=
  match route cfg req with
  | .cors204 => (⟨204, ""⟩, st, [])
  | .ping => (⟨200, "pong"⟩, st, [])
  | .sseConnect => handleSSEConnect cfg st req orc
  | .messagePost => handleMessagePost st req respond
  | .unhandled => (⟨404, ""⟩, st, [])

/-- The `res.on("close")` listener (`startSSEServer` lines 152–164):
`server.close()` is attempted and an error from it only logged, then the
entry is deleted from `activeTransports`, then `onClose` is invoked.
`closeThrew` says whether `server.close()` threw. The listener keeps no
guard: one `onClose` is emitted per invocation. -/
def handleResClose (st : Registry) (sid : String) (closeThrew : Bool) :
    Registry × List Event :=
  (eraseKey sid st, (if closeThrew then [.closeErrorLogged] else []) ++ [.onClose sid])

/-- The JSON body the delegate auth endpoint answers with, as `verifyApiKey`
reads it: `valid`, `userId`, `permissions`, `env`, each possibly absent.
`data.valid` is truthy exactly when it is `some true`; an absent or empty
`userId` is falsy for `data.userId || …`. -/
structure AuthServerReply where
  valid : Option Bool
  userId : Option String
  permissions : Option (List String)
  env : Option (List (String × String))
deriving DecidableEq

/-- How the `fetch` of `verifyApiKey` ends: a transport error (anything the
`catch` swallows) or a response with its `ok` flag, status and parsed body. -/
inductive FetchOutcome where
  | transportError
  | response (ok : Bool) (status : Nat) (body : AuthServerReply)
deriving DecidableEq

/-- What `verifyApiKey` resolves with on success. -/
structure Identity where
  userId : String
  permissions : List String
  env : List (String × String)
deriving DecidableEq

/-- `verifyApiKey` of `src/bin/mcp-proxy.ts` lines 77–108: `null` for a
missing URL, any transport error, a non-`ok` response, or a falsy `valid`
flag; otherwise an identity defaulting `userId` to
`"user-" + apiKey.substring(0, 8)` (also when the reply's `userId` is the
falsy `""`), `permissions` to `[]` and `env` to `{}`. The function is total:
nothing escapes the `try`/`catch`. -/
def verifyApiKey (authServerUrl apiKey : String) (fetched : FetchOutcome) :
    Option Identity :=
  if authServerUrl = "" then none
  else
    match fetched with
    | .transportError => none
    | .response ok _status data =>
      if !ok then none
      else if data.valid = some true then
        some
          { userId :=
              match data.userId with
              | some u => if u = "" then "user-" ++ first8 apiKey else u
              | none => "user-" ++ first8 apiKey
          , permissions := data.permissions.getD []
          , env := data.env.getD [] }
      else none

/-- The `authHandler` the CLI passes to `startSSEServer`
(`mcp-proxy.ts` lines 177–187): reject an empty key; with remote
verification enabled delegate to `verifyApiKey` (the `verify` oracle);
otherwise accept with `userId = "user-" + requestApiKey.substring(0, 8)`
and no permissions or env. -/
def cliAuthHandler (remoteVerification : Bool) (verify : String → Option Identity)
    (requestApiKey : String) : Option AuthResult :=
  if requestApiKey = "" then none
  else if remoteVerification then
    (verify requestApiKey).map (fun i => ⟨i.userId, some i.permissions, some i.env⟩)
  else
    some ⟨"user-" ++ first8 requestApiKey, none, none⟩

/-- `process.env[k] = v`. -/
def envSet (e : List (String × String)) (k v : String) : List (String × String) :=
  (k, v) :: e.filter (fun p => p.1 ≠ k)

/-- `process.env[k]`. -/
def envLookup : List (String × String) → String → Option String
  | [], _ => none
  | p :: e, k => if p.1 = k then some p.2 else envLookup e k

/-- The env loop inside the CLI's `createServer` (`mcp-proxy.ts` lines
151–158): every entry whose value is neither `undefined` nor `null` is
written into `process.env`; the rest are skipped. -/
def applyEnvEntries (procEnv : List (String × String))
    (env : List (String × Option String)) : List (String × String) :=
  env.foldl
    (fun acc kv =>
      match kv.2 with
      | some v => envSet acc kv.1 v
      | none => acc)
    procEnv

/-- The two environments that matter for per-session env injection: the
proxy's own `process.env` and the environment the upstream worker process
runs with. -/
structure ProxyState where
  procEnv : List (String × String)
  workerEnv : List (String × String)
deriving DecidableEq

/-- Modelled from the spec: `StdioClientTransport` (not under `src/`) spawns
the single upstream worker once, at proxy start-up, before any session
exists, passing it `process.env` (spec §2 "a single long-lived … channel to
one external worker process", §9 "environment … delivered to the upstream
worker at worker-creation time"); a child process receives a copy of its
parent's environment at spawn time. -/
def spawnWorker (e : List (String × String)) : ProxyState :=
  { procEnv := e, workerEnv := e }

/-- The session-creation step of the CLI's `createServer`: the Auth
Resolver's `env` mapping is applied to `process.env`; the already-running
worker's environment is whatever it was spawned with. -/
def createServerEnvStep (st : ProxyState) (env : List (String × Option String)) :
    ProxyState :=
  { st with procEnv := applyEnvEntries st.procEnv env }

/-! ## Helper lemmas about the registry and the environment. -/

theorem lookupSession_cons (p : String × Session) (st : Registry) (k : String) :
    lookupSession (p :: st) k = if p.1 = k then some p.2 else lookupSession st k := rfl

theorem updateSession_cons (k : String) (f : Session → Session)
    (p : String × Session) (st : Registry) :
    updateSession k f (p :: st)
      = (if p.1 = k then (p.1, f p.2) else p) :: updateSession k f st := rfl

theorem eraseKey_cons (k : String) (p : String × Session) (st : Registry) :
    eraseKey k (p :: st) = if p.1 = k then eraseKey k st else p :: eraseKey k st := by
  by_cases hp : p.1 = k <;> simp [eraseKey, List.filter_cons, hp]

theorem lookupSession_updateSession_ne (f : Session → Session) (st : Registry)
    {k k' : String} (h : k' ≠ k) :
    lookupSession (updateSession k f st) k' = lookupSession st k' := by
  induction st with
  | nil => rfl
  | cons p st ih =>
    by_cases hp : p.1 = k
    · simp [updateSession_cons, lookupSession_cons, hp, Ne.symm h, ih]
    · simp [updateSession_cons, lookupSession_cons, hp, ih]

theorem lookupSession_updateSession_eq (f : Session → Session) (st : Registry)
    (k : String) :
    lookupSession (updateSession k f st) k = (lookupSession st k).map f := by
  induction st with
  | nil => rfl
  | cons p st ih =>
    by_cases hp : p.1 = k
    · simp [updateSession_cons, lookupSession_cons, hp]
    · simp [updateSession_cons, lookupSession_cons, hp, ih]

theorem lookupSession_eraseKey_eq (st : Registry) (k : String) :
    lookupSession (eraseKey k st) k = none := by
  induction st with
  | nil => rfl
  | cons p st ih =>
    by_cases hp : p.1 = k
    · simpa [eraseKey_cons, hp] using ih
    · simpa [eraseKey_cons, lookupSession_cons, hp] using ih

theorem lookupSession_eraseKey_ne (st : Registry) {k k' : String} (h : k' ≠ k) :
    lookupSession (eraseKey k st) k' = lookupSession st k' := by
  induction st with
  | nil => rfl
  | cons p st ih =>
    by_cases hp : p.1 = k
    · simp [eraseKey_cons, lookupSession_cons, hp, Ne.symm h, ih]
    · simp [eraseKey_cons, lookupSession_cons, hp, ih]

theorem lookupSession_insertSession_eq (k : String) (s : Session) (st : Registry) :
    lookupSession (insertSession k s st) k = some s := by
  simp [insertSession, lookupSession_cons]

theorem lookupSession_insertSession_ne (k : String) (s : Session) (st : Registry)
    {k' : String} (h : k' ≠ k) :
    lookupSession (insertSession k s st) k' = lookupSession st k' := by
  simp [insertSession, lookupSession_cons, Ne.symm h, lookupSession_eraseKey_ne st h]

theorem envLookup_cons (p : String × String) (e : List (String × String)) (k : String) :
    envLookup (p :: e) k = if p.1 = k then some p.2 else envLookup e k := rfl

theorem envLookup_filterNe (e : List (String × String)) {k k' : String} (h : k' ≠ k) :
    envLookup (e.filter (fun p => p.1 ≠ k)) k' = envLookup e k' := by
  induction e with
  | nil => rfl
  | cons p e ih =>
    rw [List.filter_cons]
    by_cases hp : p.1 = k
    · have hk' : ¬ p.1 = k' := by rw [hp]; exact fun hc => h hc.symm
      rw [if_neg (by simp [hp]), ih, envLookup_cons, if_neg hk']
    · rw [if_pos (by simp [hp]), envLookup_cons, envLookup_cons, ih]

theorem envLookup_envSet_ne (e : List (String × String)) {k k' : String} (v : String)
    (h : k' ≠ k) :
    envLookup (envSet e k v) k' = envLookup e k' := by
  have hk : ¬ k = k' := fun hc => h hc.symm
  show (if k = k' then some v else envLookup (e.filter (fun p => p.1 ≠ k)) k')
      = envLookup e k'
  rw [if_neg hk, envLookup_filterNe e h]

theorem envLookup_envSet_eq (e : List (String × String)) (k v : String) :
    envLookup (envSet e k v) k = some v := by
  show (if k = k then some v else envLookup (e.filter (fun p => p.1 ≠ k)) k) = some v
  rw [if_pos rfl]

theorem applyEnvEntries_cons (e : List (String × String))
    (kv : String × Option String) (l : List (String × Option String)) :
    applyEnvEntries e (kv :: l)
      = applyEnvEntries
          (match kv.2 with | some v => envSet e kv.1 v | none => e) l := rfl

theorem applyEnvEntries_lookup_not_mem (l : List (String × Option String))
    (e : List (String × String)) (k : String) (h : ∀ kv ∈ l, kv.1 ≠ k) :
    envLookup (applyEnvEntries e l) k = envLookup e k := by
  induction l generalizing e with
  | nil => rfl
  | cons kv l ih =>
    have hk : kv.1 ≠ k := h kv (by simp)
    have hrest : ∀ kv' ∈ l, kv'.1 ≠ k := fun kv' hm => h kv' (by simp [hm])
    rw [applyEnvEntries_cons]
    cases hv : kv.2 with
    | some v =>
      exact (ih (envSet e kv.1 v) hrest).trans (envLookup_envSet_ne e v (Ne.symm hk))
    | none =>
      exact ih e hrest

theorem applyEnvEntries_lookup_mem (l : List (String × Option String))
    (e : List (String × String)) (k v : String)
    (hnd : (l.map Prod.fst).Nodup) (hm : (k, some v) ∈ l) :
    envLookup (applyEnvEntries e l) k = some v := by
  induction l generalizing e with
  | nil => cases hm
  | cons kv l ih =>
    rcases List.mem_cons.mp hm with hhead | htail
    · have hk1 : kv.1 = k := by rw [← hhead]
      have hk2 : kv.2 = some v := by rw [← hhead]
      have hnot : ∀ kv' ∈ l, kv'.1 ≠ k := by
        intro kv' hm' hc
        have hmem : kv.1 ∈ l.map Prod.fst := by
          rw [hk1, ← hc]; exact List.mem_map_of_mem _ hm'
        exact (List.nodup_cons.mp hnd).1 hmem
      subst hk1
      rw [applyEnvEntries_cons, hk2, applyEnvEntries_lookup_not_mem _ _ _ hnot]
      exact envLookup_envSet_eq e kv.1 v
    · have hnd' : (l.map Prod.fst).Nodup := (List.nodup_cons.mp hnd).2
      rw [applyEnvEntries_cons]
      cases hv : kv.2 with
      | some w =>
        exact ih (envSet e kv.1 w) hnd' htail
      | none =>
        exact ih e hnd' htail

/-! ## Run lemmas for the connect branch. -/

theorem handleSSEConnect_missing (cfg : Config) (st : Registry) (req : Request)
    (orc : ConnectOracles)
    (h : checkAuth cfg (extractApiKey cfg req) = .unauthorizedMissing) :
    handleSSEConnect cfg st req orc
      = (⟨401, "Unauthorized: Missing API key"⟩, st, []) := by
  simp only [handleSSEConnect, h]

theorem handleSSEConnect_invalid (cfg : Config) (st : Registry) (req : Request)
    (orc : ConnectOracles)
    (h : checkAuth cfg (extractApiKey cfg req) = .unauthorizedInvalid) :
    handleSSEConnect cfg st req orc
      = (⟨401, "Unauthorized: Invalid API key"⟩, st, []) := by
  simp only [handleSSEConnect, h]

theorem handleSSEConnect_createErrOther (cfg : Config) (st : Registry)
    (req : Request) (orc : ConnectOracles) (u : Option String)
    (e : Option (List (String × String)))
    (ha : checkAuth cfg (extractApiKey cfg req) = .accepted u e)
    (hc : orc.createOutcome = .errOther) :
    handleSSEConnect cfg st req orc = (⟨500, "Error creating server"⟩, st, []) := by
  simp only [handleSSEConnect, ha, hc]

theorem handleSSEConnect_createErrResponse (cfg : Config) (st : Registry)
    (req : Request) (orc : ConnectOracles) (u : Option String)
    (e : Option (List (String × String))) (s : Nat) (t : String)
    (ha : checkAuth cfg (extractApiKey cfg req) = .accepted u e)
    (hc : orc.createOutcome = .errResponse s t) :
    handleSSEConnect cfg st req orc = (⟨s, t⟩, st, []) := by
  simp only [handleSSEConnect, ha, hc]

theorem handleSSEConnect_success (cfg : Config) (st : Registry) (req : Request)
    (orc : ConnectOracles) (u : Option String)
    (e : Option (List (String × String)))
    (ha : checkAuth cfg (extractApiKey cfg req) = .accepted u e)
    (hc : orc.createOutcome = .ok) (hk : orc.connectOk = true) :
    handleSSEConnect cfg st req orc
      = (⟨200, ""⟩,
         updateSession orc.sessionId
           (fun s => { s with outbox := s.outbox ++ [.notif connectionNotification] })
           (insertSession orc.sessionId ⟨u, e, extractApiKey cfg req, []⟩ st),
         [.attached orc.sessionId, .notifSent orc.sessionId, .onConnect u]) := by
  simp only [handleSSEConnect, ha, hc, hk, if_true]

/-! ## Claim theorems. -/

/-- C1: an inbound `POST /messages` addressed to `sessionId` A is handed only
to session A's transport: for any other active session B the registry entry —
push-channel history included — is untouched, every delivery event of the
request names A, and the reply the upstream produces for the posted body
(whatever identifier value that body carries, in particular one also in use
by B) is appended to A's push-channel alone. -/
theorem c1_post_delivered_only_to_addressed_session (st : Registry)
    (A B url body : String) (respond : String → String) (s : Session)
    (hq : queryParam url "sessionId" = some A) (hA : A ≠ "") (hAB : B ≠ A)
    (hreg : lookupSession st A = some s) :
    lookupSession (handleMessagePost st ⟨.post, url, [], body⟩ respond).2.1 B
        = lookupSession st B ∧
    (handleMessagePost st ⟨.post, url, [], body⟩ respond).2.2
        = [Event.inbound A body] ∧
    lookupSession (handleMessagePost st ⟨.post, url, [], body⟩ respond).2.1 A
        = some { s with outbox := s.outbox ++ [OutMsg.relayed (respond body)] } := by
  have hrun : handleMessagePost st ⟨.post, url, [], body⟩ respond
      = (⟨202, "Accepted"⟩, deliverPost st A body respond, [Event.inbound A body]) := by
    simp only [handleMessagePost, hq, Option.getD_some, if_neg hA, hreg]
  refine ⟨?_, ?_, ?_⟩
  · rw [hrun]
    show lookupSession (deliverPost st A body respond) B = lookupSession st B
    unfold deliverPost
    exact lookupSession_updateSession_ne _ st hAB
  · rw [hrun]
  · rw [hrun]
    show lookupSession (deliverPost st A body respond) A = _
    unfold deliverPost
    rw [lookupSession_updateSession_eq, hreg]
    rfl

/-- Witness for C1: two concrete live sessions `a` and `b`; a POST addressed
to `a` updates only `a`'s push-channel. -/
theorem c1_post_delivered_only_to_addressed_session_witness :
    lookupSession (handleMessagePost
        [("a", ⟨none, none, "ka", []⟩), ("b", ⟨none, none, "kb", []⟩)]
        ⟨.post, "/messages?sessionId=a", [], "m1"⟩ id).2.1 "b"
      = lookupSession
        [("a", ⟨none, none, "ka", []⟩), ("b", ⟨none, none, "kb", []⟩)] "b" ∧
    (handleMessagePost
        [("a", ⟨none, none, "ka", []⟩), ("b", ⟨none, none, "kb", []⟩)]
        ⟨.post, "/messages?sessionId=a", [], "m1"⟩ id).2.2
      = [Event.inbound "a" "m1"] ∧
    lookupSession (handleMessagePost
        [("a", ⟨none, none, "ka", []⟩), ("b", ⟨none, none, "kb", []⟩)]
        ⟨.post, "/messages?sessionId=a", [], "m1"⟩ id).2.1 "a"
      = some ⟨none, none, "ka", [OutMsg.relayed "m1"]⟩ :=
  c1_post_delivered_only_to_addressed_session
    [("a", ⟨none, none, "ka", []⟩), ("b", ⟨none, none, "kb", []⟩)]
    "a" "b" "/messages?sessionId=a" "m1" id ⟨none, none, "ka", []⟩
    (by decide) (by decide) (by decide) (by decide)

/-- C6: a `POST /messages` whose `sessionId` query parameter is missing (or
empty) is answered `400 "No sessionId"`, one naming no registered session is
answered `400 "No active transport"`, both leaving the registry untouched;
one naming a registered session hands the body to that session's inbound
handler, and the whole POST branch never consults the authentication
configuration (same outcome under every `Config`). -/
theorem c6_messages_routing (st : Registry) (req : Request)
    (orc : ConnectOracles) (respond : String → String) :
    ((queryParam req.url "sessionId").getD "" = "" →
       handleMessagePost st req respond = (⟨400, "No sessionId"⟩, st, [])) ∧
    (∀ sid, queryParam req.url "sessionId" = some sid → sid ≠ "" →
       lookupSession st sid = none →
       handleMessagePost st req respond = (⟨400, "No active transport"⟩, st, [])) ∧
    (∀ sid s, queryParam req.url "sessionId" = some sid → sid ≠ "" →
       lookupSession st sid = some s →
       (handleMessagePost st req respond).2.2 = [Event.inbound sid req.body] ∧
       lookupSession (handleMessagePost st req respond).2.1 sid
         = some { s with outbox := s.outbox ++ [OutMsg.relayed (respond req.body)] }) ∧
    (∀ cfg : Config, req.method = .post → strStartsWith req.url "/messages" = true →
       handleRequest cfg st req orc respond = handleMessagePost st req respond) := by
  refine ⟨?_, ?_, ?_, ?_⟩
  · intro h
    simp only [handleMessagePost, h, if_pos]
  · intro sid hq hne hnone
    simp only [handleMessagePost, hq, Option.getD_some, if_neg hne, hnone]
  · intro sid s hq hne hsome
    have hrun : handleMessagePost st req respond
        = (⟨202, "Accepted"⟩, deliverPost st sid req.body respond,
            [Event.inbound sid req.body]) := by
      simp only [handleMessagePost, hq, Option.getD_some, if_neg hne, hsome]
    refine ⟨by rw [hrun], ?_⟩
    rw [hrun]
    show lookupSession (deliverPost st sid req.body respond) sid = _
    unfold deliverPost
    rw [lookupSession_updateSession_eq, hsome]
    rfl
  · intro cfg hm hpre
    simp [handleRequest, route, hm, hpre]

/-- Witness for C6: the three outcomes at concrete requests — missing
`sessionId`, an unknown `sessionId`, and a delivered post, the last one
independent of the auth configuration. -/
theorem c6_messages_routing_witness :
    handleMessagePost [("a", ⟨none, none, "ka", []⟩)] ⟨.post, "/messages", [], "m"⟩ id
      = (⟨400, "No sessionId"⟩, [("a", ⟨none, none, "ka", []⟩)], []) ∧
    handleMessagePost [("a", ⟨none, none, "ka", []⟩)]
        ⟨.post, "/messages?sessionId=z", [], "m"⟩ id
      = (⟨400, "No active transport"⟩, [("a", ⟨none, none, "ka", []⟩)], []) ∧
    handleRequest ⟨"/sse", some "secret", "x-api-key", none⟩
        [("a", ⟨none, none, "ka", []⟩)] ⟨.post, "/messages?sessionId=a", [], "m"⟩
        ⟨"sid", .ok, true⟩ id
      = handleMessagePost [("a", ⟨none, none, "ka", []⟩)]
          ⟨.post, "/messages?sessionId=a", [], "m"⟩ id :=
  ⟨(c6_messages_routing [("a", ⟨none, none, "ka", []⟩)] ⟨.post, "/messages", [], "m"⟩
      ⟨"sid", .ok, true⟩ id).1 (by decide),
   (c6_messages_routing [("a", ⟨none, none, "ka", []⟩)]
      ⟨.post, "/messages?sessionId=z", [], "m"⟩ ⟨"sid", .ok, true⟩ id).2.1 "z"
      (by decide) (by decide) (by decide),
   (c6_messages_routing [("a", ⟨none, none, "ka", []⟩)]
      ⟨.post, "/messages?sessionId=a", [], "m"⟩ ⟨"sid", .ok, true⟩ id).2.2.2
      ⟨"/sse", some "secret", "x-api-key", none⟩ rfl (by decide)⟩

/-- C10 is false as stated: route matching is indeed by string prefix, but the
liveness probe is checked first, so a GET for the exact URL `/ping` is served
by the probe even when it begins with the configured endpoint —
with endpoint `"/p"`, `GET /ping` is not treated as a connect attempt. -/
theorem c10_counterexample_ping_precedes_endpoint :
    strStartsWith "/ping" "/p" = true ∧
    route ⟨"/p", none, "x-api-key", none⟩ ⟨.get, "/ping", [], ""⟩ = .ping ∧
    route ⟨"/p", none, "x-api-key", none⟩ ⟨.get, "/ping", [], ""⟩ ≠ .sseConnect := by
  decide

/-- C10 (amended): route matching for the public endpoints is by string
prefix, not exact match: every GET whose URL begins with the configured
stream endpoint — except the exact URL `/ping`, which the liveness probe
claims first — is treated as a connect attempt, and every POST whose URL
begins with `/messages` is treated as a message post. -/
theorem c10_amended_route_matching_by_leading_string (cfg : Config) (req : Request) :
    (req.method = .get → strStartsWith req.url cfg.endpoint = true →
       req.url ≠ "/ping" → route cfg req = .sseConnect) ∧
    (req.method = .post → strStartsWith req.url "/messages" = true →
       route cfg req = .messagePost) := by
  constructor
  · intro hm hpre hping
    simp [route, hm, hpre, hping]
  · intro hm hpre
    simp [route, hm, hpre]

/-- Witness for C10 (amended): with endpoint `/sse`, both `GET /sse2` and
`GET /sse/extra` are connect attempts, and `POST /messages?sessionId=x` is a
message post. -/
theorem c10_amended_route_matching_by_leading_string_witness :
    route ⟨"/sse", none, "x-api-key", none⟩ ⟨.get, "/sse2", [], ""⟩ = .sseConnect ∧
    route ⟨"/sse", none, "x-api-key", none⟩ ⟨.get, "/sse/extra", [], ""⟩ = .sseConnect ∧
    route ⟨"/sse", none, "x-api-key", none⟩
        ⟨.post, "/messages?sessionId=x", [], ""⟩ = .messagePost :=
  ⟨(c10_amended_route_matching_by_leading_string ⟨"/sse", none, "x-api-key", none⟩
      ⟨.get, "/sse2", [], ""⟩).1 rfl (by decide) (by decide),
   (c10_amended_route_matching_by_leading_string ⟨"/sse", none, "x-api-key", none⟩
      ⟨.get, "/sse/extra", [], ""⟩).1 rfl (by decide) (by decide),
   (c10_amended_route_matching_by_leading_string ⟨"/sse", none, "x-api-key", none⟩
      ⟨.post, "/messages?sessionId=x", [], ""⟩).2 rfl (by decide)⟩

/-- C2: every connect attempt whose extracted credential is empty, or which
the configured authentication rejects (delegate handler returning `null`, or
a mismatch against the configured static key), is answered HTTP 401 with a
non-empty reason string, the registry is exactly what it was (no session
added), and no lifecycle callback fires. -/
theorem c2_auth_failure_401_registry_unchanged (cfg : Config) (st : Registry)
    (req : Request) (orc : ConnectOracles)
    (h : extractApiKey cfg req = ""
        ∨ (∃ handler, cfg.authHandler = some handler
            ∧ handler (extractApiKey cfg req) = none)
        ∨ (cfg.authHandler = none ∧ ∃ k, cfg.apiKey = some k ∧ k ≠ ""
            ∧ extractApiKey cfg req ≠ k)) :
    (handleSSEConnect cfg st req orc).1.status = 401 ∧
    (handleSSEConnect cfg st req orc).1.body ≠ "" ∧
    (handleSSEConnect cfg st req orc).2.1 = st ∧
    (handleSSEConnect cfg st req orc).2.2 = [] := by
  have hca : checkAuth cfg (extractApiKey cfg req) = .unauthorizedMissing
      ∨ checkAuth cfg (extractApiKey cfg req) = .unauthorizedInvalid := by
    rcases h with h | ⟨handler, hh, hn⟩ | ⟨hnone, k, hk, hke, hne⟩
    · left
      simp [checkAuth, h]
    · by_cases hempty : extractApiKey cfg req = ""
      · left
        simp [checkAuth, hempty]
      · right
        simp [checkAuth, hempty, hh, hn]
    · by_cases hempty : extractApiKey cfg req = ""
      · left
        simp [checkAuth, hempty]
      · right
        simp [checkAuth, hempty, hnone, hk, hke, hne]
  rcases hca with hca | hca
  · rw [handleSSEConnect_missing cfg st req orc hca]
    exact ⟨rfl, show "Unauthorized: Missing API key" ≠ "" by decide, rfl, rfl⟩
  · rw [handleSSEConnect_invalid cfg st req orc hca]
    exact ⟨rfl, show "Unauthorized: Invalid API key" ≠ "" by decide, rfl, rfl⟩

/-- Witness for C2: the spec's own scenario — static key `"secret"`
configured, presented key `"wrong"` — is answered 401 on an untouched empty
registry; a second application covers the missing-credential case. -/
theorem c2_auth_failure_401_registry_unchanged_witness :
    (handleSSEConnect ⟨"/sse", some "secret", "x-api-key", none⟩ []
        ⟨.get, "/sse", [("x-api-key", "wrong")], ""⟩ ⟨"sid", .ok, true⟩).1.status = 401 ∧
    (handleSSEConnect ⟨"/sse", some "secret", "x-api-key", none⟩ []
        ⟨.get, "/sse", [("x-api-key", "wrong")], ""⟩ ⟨"sid", .ok, true⟩).2.1 = [] ∧
    (handleSSEConnect ⟨"/sse", some "secret", "x-api-key", none⟩ []
        ⟨.get, "/sse", [], ""⟩ ⟨"sid", .ok, true⟩).1.status = 401 :=
  ⟨(c2_auth_failure_401_registry_unchanged ⟨"/sse", some "secret", "x-api-key", none⟩
      [] ⟨.get, "/sse", [("x-api-key", "wrong")], ""⟩ ⟨"sid", .ok, true⟩
      (Or.inr (Or.inr ⟨rfl, "secret", rfl, by decide, by decide⟩))).1,
   (c2_auth_failure_401_registry_unchanged ⟨"/sse", some "secret", "x-api-key", none⟩
      [] ⟨.get, "/sse", [("x-api-key", "wrong")], ""⟩ ⟨"sid", .ok, true⟩
      (Or.inr (Or.inr ⟨rfl, "secret", rfl, by decide, by decide⟩))).2.2.1,
   (c2_auth_failure_401_registry_unchanged ⟨"/sse", some "secret", "x-api-key", none⟩
      [] ⟨.get, "/sse", [], ""⟩ ⟨"sid", .ok, true⟩ (Or.inl (by decide))).1⟩

/-- C5 is false as stated: when the per-session factory throws a `Response`
object, the handler echoes that object's status and statusText instead of
answering 500 — here a thrown 403 `Forbidden` is passed through (with still
no session registered). -/
theorem c5_counterexample_thrown_response_passthrough :
    (handleSSEConnect ⟨"/sse", none, "x-api-key", none⟩ []
        ⟨.get, "/sse", [("x-api-key", "k1")], ""⟩
        ⟨"sid1", .errResponse 403 "Forbidden", true⟩).1 = ⟨403, "Forbidden"⟩ ∧
    (handleSSEConnect ⟨"/sse", none, "x-api-key", none⟩ []
        ⟨.get, "/sse", [("x-api-key", "k1")], ""⟩
        ⟨"sid1", .errResponse 403 "Forbidden", true⟩).1.status ≠ 500 ∧
    (handleSSEConnect ⟨"/sse", none, "x-api-key", none⟩ []
        ⟨.get, "/sse", [("x-api-key", "k1")], ""⟩
        ⟨"sid1", .errResponse 403 "Forbidden", true⟩).2.1 = [] := by
  decide

/-- C5 (amended): for every authenticated connect attempt in which the
external per-session factory fails, no session is registered and no callback
fires; the response is HTTP 500 with the plain-text reason
`Error creating server`, except that an error which is itself a `Response`
object has its own status and statusText echoed instead. -/
theorem c5_amended_create_failure_no_registration (cfg : Config) (st : Registry)
    (req : Request) (orc : ConnectOracles) (u : Option String)
    (e : Option (List (String × String)))
    (ha : checkAuth cfg (extractApiKey cfg req) = .accepted u e) :
    (orc.createOutcome = .errOther →
       handleSSEConnect cfg st req orc = (⟨500, "Error creating server"⟩, st, [])) ∧
    (∀ s t, orc.createOutcome = .errResponse s t →
       handleSSEConnect cfg st req orc = (⟨s, t⟩, st, [])) :=
  ⟨fun hc => handleSSEConnect_createErrOther cfg st req orc u e ha hc,
   fun s t hc => handleSSEConnect_createErrResponse cfg st req orc u e s t ha hc⟩

/-- Witness for C5 (amended): a concrete authenticated attempt whose factory
throws a non-`Response` error yields 500 and an unchanged empty registry. -/
theorem c5_amended_create_failure_no_registration_witness :
    handleSSEConnect ⟨"/sse", none, "x-api-key", none⟩ []
        ⟨.get, "/sse", [("x-api-key", "k1")], ""⟩ ⟨"sid1", .errOther, true⟩
      = (⟨500, "Error creating server"⟩, [], []) :=
  (c5_amended_create_failure_no_registration ⟨"/sse", none, "x-api-key", none⟩ []
      ⟨.get, "/sse", [("x-api-key", "k1")], ""⟩ ⟨"sid1", .errOther, true⟩
      none none (by decide)).1 rfl

/-- C7 is false as stated: a connect request with a valid credential whose
per-session factory fails sends no connection notification and activates no
session, so the "every connect request with a valid credential" guarantee
needs the factory/attach success assumptions. -/
theorem c7_counterexample_factory_failure_no_notification :
    checkAuth ⟨"/sse", none, "x-api-key", none⟩
        (extractApiKey ⟨"/sse", none, "x-api-key", none⟩
          ⟨.get, "/sse", [("x-api-key", "k2")], ""⟩)
      = .accepted none none ∧
    (handleSSEConnect ⟨"/sse", none, "x-api-key", none⟩ []
        ⟨.get, "/sse", [("x-api-key", "k2")], ""⟩ ⟨"sid2", .errOther, true⟩).2.2 = [] ∧
    lookupSession (handleSSEConnect ⟨"/sse", none, "x-api-key", none⟩ []
        ⟨.get, "/sse", [("x-api-key", "k2")], ""⟩ ⟨"sid2", .errOther, true⟩).2.1 "sid2"
      = none := by
  decide

/-- C7 (amended): for every connect request with a valid credential whose
per-session factory and attach succeed, the session is registered (active)
and its push-channel history is exactly one synthetic connection-established
notification (`jsonrpc` `2.0`, method `sse/connection`), emitted between the
attach and the `onConnect` callback; traffic later relayed to that session
lands strictly after the notification. -/
theorem c7_amended_one_notification_before_traffic (cfg : Config) (st : Registry)
    (req : Request) (orc : ConnectOracles) (u : Option String)
    (e : Option (List (String × String)))
    (ha : checkAuth cfg (extractApiKey cfg req) = .accepted u e)
    (hc : orc.createOutcome = .ok) (hk : orc.connectOk = true) :
    (handleSSEConnect cfg st req orc).1.status = 200 ∧
    lookupSession (handleSSEConnect cfg st req orc).2.1 orc.sessionId
      = some ⟨u, e, extractApiKey cfg req, [.notif connectionNotification]⟩ ∧
    (handleSSEConnect cfg st req orc).2.2
      = [.attached orc.sessionId, .notifSent orc.sessionId, .onConnect u] ∧
    connectionNotification.jsonrpc = "2.0" ∧
    connectionNotification.method = "sse/connection" ∧
    (∀ body respond,
       lookupSession
           (deliverPost (handleSSEConnect cfg st req orc).2.1 orc.sessionId body respond)
           orc.sessionId
         = some ⟨u, e, extractApiKey cfg req,
             [.notif connectionNotification, .relayed (respond body)]⟩) := by
  have hrun := handleSSEConnect_success cfg st req orc u e ha hc hk
  refine ⟨by rw [hrun], ?_, by rw [hrun], rfl, rfl, ?_⟩
  · rw [hrun]
    show lookupSession (updateSession orc.sessionId
        (fun s => { s with outbox := s.outbox ++ [.notif connectionNotification] })
        (insertSession orc.sessionId ⟨u, e, extractApiKey cfg req, []⟩ st))
        orc.sessionId = _
    rw [lookupSession_updateSession_eq, lookupSession_insertSession_eq]
    rfl
  · intro body respond
    rw [hrun]
    show lookupSession (deliverPost (updateSession orc.sessionId
        (fun s => { s with outbox := s.outbox ++ [.notif connectionNotification] })
        (insertSession orc.sessionId ⟨u, e, extractApiKey cfg req, []⟩ st))
        orc.sessionId body respond) orc.sessionId = _
    unfold deliverPost
    rw [lookupSession_updateSession_eq, lookupSession_updateSession_eq,
      lookupSession_insertSession_eq]
    rfl

/-- Witness for C7 (amended): a concrete successful connect registers the
session with exactly the connection notification in its push-channel, and a
later relayed reply lands after it. -/
theorem c7_amended_one_notification_before_traffic_witness :
    (handleSSEConnect ⟨"/sse", none, "x-api-key", none⟩ []
        ⟨.get, "/sse", [("x-api-key", "k3")], ""⟩ ⟨"sid3", .ok, true⟩).1.status = 200 ∧
    lookupSession (handleSSEConnect ⟨"/sse", none, "x-api-key", none⟩ []
        ⟨.get, "/sse", [("x-api-key", "k3")], ""⟩ ⟨"sid3", .ok, true⟩).2.1 "sid3"
      = some ⟨none, none, "k3", [.notif connectionNotification]⟩ ∧
    lookupSession (deliverPost (handleSSEConnect ⟨"/sse", none, "x-api-key", none⟩ []
        ⟨.get, "/sse", [("x-api-key", "k3")], ""⟩ ⟨"sid3", .ok, true⟩).2.1 "sid3"
        "m7" (fun _ => "r7")) "sid3"
      = some ⟨none, none, "k3",
          [.notif connectionNotification, .relayed "r7"]⟩ :=
  ⟨(c7_amended_one_notification_before_traffic ⟨"/sse", none, "x-api-key", none⟩ []
      ⟨.get, "/sse", [("x-api-key", "k3")], ""⟩ ⟨"sid3", .ok, true⟩ none none
      (by decide) rfl rfl).1,
   (c7_amended_one_notification_before_traffic ⟨"/sse", none, "x-api-key", none⟩ []
      ⟨.get, "/sse", [("x-api-key", "k3")], ""⟩ ⟨"sid3", .ok, true⟩ none none
      (by decide) rfl rfl).2.1,
   (c7_amended_one_notification_before_traffic ⟨"/sse", none, "x-api-key", none⟩ []
      ⟨.get, "/sse", [("x-api-key", "k3")], ""⟩ ⟨"sid3", .ok, true⟩ none none
      (by decide) rfl rfl).2.2.2.2.2 "m7" (fun _ => "r7")⟩

/-- C3 is false as stated: with neither a delegate handler nor a static key
configured, `startSSEServer` admits the credential `"anything"` with no
`userId` at all — not with the derived `"user-" + first-8-characters` value
the claim asserts for that tier. -/
theorem c3_counterexample_third_tier_has_no_userId :
    checkAuth ⟨"/sse", none, "x-api-key", none⟩ "anything"
      = .accepted none none ∧
    AdmissionResult.accepted none none
      ≠ .accepted (some ("user-" ++ first8 "anything")) none := by
  decide

/-- C3 (amended): admission follows a three-tier precedence: a configured
auth handler alone decides (the static credential is ignored); otherwise a
configured non-empty static credential decides by string equality, admitting
with no identity metadata (no userId, no env); otherwise every non-empty
credential is admitted, likewise with no userId. The deterministic userId
`"user-"` + the credential's first 8 characters is produced by the CLI's
fallback auth handler — which `mcp-proxy.ts` installs as the configured
handler — when remote verification is off, not by the third tier itself. -/
theorem c3_amended_admission_precedence (cfg : Config) (key : String)
    (hk : key ≠ "") :
    (∀ handler, cfg.authHandler = some handler →
       checkAuth cfg key
           = (match handler key with
              | none => .unauthorizedInvalid
              | some r => .accepted (some r.userId) r.env) ∧
       ∀ a, checkAuth { cfg with apiKey := a } key = checkAuth cfg key) ∧
    (∀ k, cfg.authHandler = none → cfg.apiKey = some k → k ≠ "" →
       checkAuth cfg key
         = (if key = k then .accepted none none else .unauthorizedInvalid)) ∧
    (cfg.authHandler = none → cfg.apiKey = none →
       checkAuth cfg key = .accepted none none) ∧
    (∀ verify, cliAuthHandler false verify key
       = some ⟨"user-" ++ first8 key, none, none⟩) := by
  refine ⟨?_, ?_, ?_, ?_⟩
  · intro handler hh
    constructor
    · simp [checkAuth, hk, hh]
    · intro a
      simp [checkAuth, hk, hh]
  · intro k hh hsk hke
    by_cases heq : key = k
    · simp [checkAuth, hk, hh, hsk, heq, hke]
    · simp [checkAuth, hk, hh, hsk, heq, hke]
  · intro hh hsk
    simp [checkAuth, hk, hh, hsk]
  · intro verify
    simp [cliAuthHandler, hk]

/-- Witness for C3 (amended): the static tier admits the matching key
`"secret"` with no identity, and the CLI fallback derives
`"user-anything"` for `"anything"`. -/
theorem c3_amended_admission_precedence_witness :
    checkAuth ⟨"/sse", some "secret", "x-api-key", none⟩ "secret"
      = .accepted none none ∧
    cliAuthHandler false (fun _ => none) "anything"
      = some ⟨"user-anything", none, none⟩ :=
  ⟨((c3_amended_admission_precedence ⟨"/sse", some "secret", "x-api-key", none⟩
      "secret" (by decide)).2.1 "secret" rfl rfl (by decide)).trans (if_pos rfl),
   (c3_amended_admission_precedence ⟨"/sse", some "secret", "x-api-key", none⟩
      "anything" (by decide)).2.2.2 (fun _ => none)⟩

/-- C4: `verifyApiKey` never throws and fails closed — it returns `null` on
any transport error, on a non-success response, and on a response whose
validity flag is false or absent; on a success response with a true validity
flag it returns an identity whose `userId` defaults to `"user-"` plus the
credential's first 8 characters when the reply omits it, with permissions
defaulting to `[]` and env to `{}` (the total Lean function witnesses the
no-throw contract). -/
theorem c4_verifyApiKey_fail_closed_with_defaults (authServerUrl apiKey : String)
    (fetched : FetchOutcome) (hurl : authServerUrl ≠ "") :
    (fetched = .transportError → verifyApiKey authServerUrl apiKey fetched = none) ∧
    (∀ status data, fetched = .response false status data →
       verifyApiKey authServerUrl apiKey fetched = none) ∧
    (∀ ok status data, fetched = .response ok status data →
       data.valid ≠ some true → verifyApiKey authServerUrl apiKey fetched = none) ∧
    (∀ status data, fetched = .response true status data → data.valid = some true →
       data.userId = none → data.permissions = none → data.env = none →
       verifyApiKey authServerUrl apiKey fetched
         = some ⟨"user-" ++ first8 apiKey, [], []⟩) ∧
    (∀ status data u p e, fetched = .response true status data →
       data.valid = some true → data.userId = some u → u ≠ "" →
       data.permissions = some p → data.env = some e →
       verifyApiKey authServerUrl apiKey fetched = some ⟨u, p, e⟩) := by
  refine ⟨?_, ?_, ?_, ?_, ?_⟩
  · intro hf
    subst hf
    simp [verifyApiKey, hurl]
  · intro status data hf
    subst hf
    simp [verifyApiKey, hurl]
  · intro ok status data hf hv
    subst hf
    cases ok <;> simp [verifyApiKey, hurl, hv]
  · intro status data hf hv hu hp he
    subst hf
    simp [verifyApiKey, hurl, hv, hu, hp, he]
  · intro status data u p e hf hv hu hune hp he
    subst hf
    simp [verifyApiKey, hurl, hv, hu, hune, hp, he]

/-- Witness for C4: a success reply that omits `userId`, `permissions` and
`env` yields the derived identity for the key `"abcdefghij"`; a transport
error yields `null`. -/
theorem c4_verifyApiKey_fail_closed_with_defaults_witness :
    verifyApiKey "http://auth.example" "abcdefghij"
        (.response true 200 ⟨some true, none, none, none⟩)
      = some ⟨"user-abcdefgh", [], []⟩ ∧
    verifyApiKey "http://auth.example" "abcdefghij" .transportError = none :=
  ⟨(c4_verifyApiKey_fail_closed_with_defaults "http://auth.example" "abcdefghij"
      (.response true 200 ⟨some true, none, none, none⟩) (by decide)).2.2.2.1
      200 ⟨some true, none, none, none⟩ rfl rfl rfl rfl rfl,
   (c4_verifyApiKey_fail_closed_with_defaults "http://auth.example" "abcdefghij"
      .transportError (by decide)).1 rfl⟩

/-- C8's idempotence is false as stated: nothing guards the close listener,
so a repeated close signal re-runs teardown — after two signals for the same
session, `onClose` has fired twice, not once. -/
theorem c8_counterexample_repeated_close_double_invokes :
    ((handleResClose [("s", ⟨none, none, "k", []⟩)] "s" false).2
        ++ (handleResClose
              (handleResClose [("s", ⟨none, none, "k", []⟩)] "s" false).1
              "s" false).2)
      = [Event.onClose "s", Event.onClose "s"] ∧
    [Event.onClose "s", Event.onClose "s"] ≠ [Event.onClose "s"] := by
  decide

/-- C8 (amended): each close signal removes the session from the registry and
invokes `onClose` exactly once, and an error thrown by `server.close()`
during cleanup prevents neither the removal nor the `onClose` invocation
(it is only logged). The at-most-once teardown relies on the runtime firing
the response close event once per connection: the listener itself is
unguarded and would re-run teardown on a repeated signal. -/
theorem c8_amended_close_removes_and_notifies (st : Registry) (sid : String)
    (closeThrew : Bool) :
    lookupSession (handleResClose st sid closeThrew).1 sid = none ∧
    (handleResClose st sid closeThrew).1 = eraseKey sid st ∧
    ((handleResClose st sid closeThrew).2.filter (fun e => e = Event.onClose sid))
      = [Event.onClose sid] ∧
    (closeThrew = true →
       (handleResClose st sid closeThrew).2
         = [Event.closeErrorLogged, Event.onClose sid]) := by
  refine ⟨lookupSession_eraseKey_eq st sid, rfl, ?_, fun h => by subst h; rfl⟩
  cases closeThrew <;> simp [handleResClose]

/-- Witness for C8 (amended): a concrete close whose `server.close()` throws
still removes the session and still fires `onClose` (after the logged
error). -/
theorem c8_amended_close_removes_and_notifies_witness :
    lookupSession (handleResClose [("s8", ⟨none, none, "k", []⟩)] "s8" true).1 "s8"
      = none ∧
    (handleResClose [("s8", ⟨none, none, "k", []⟩)] "s8" true).2
      = [Event.closeErrorLogged, Event.onClose "s8"] :=
  ⟨(c8_amended_close_removes_and_notifies [("s8", ⟨none, none, "k", []⟩)] "s8" true).1,
   (c8_amended_close_removes_and_notifies [("s8", ⟨none, none, "k", []⟩)] "s8" true).2.2.2
      rfl⟩

/-- C9 is false as stated: an env entry applied at session-creation time does
land in the process-wide environment, but the single upstream worker was
spawned earlier with a copy of the environment, so the entry is not visible
to the worker process. -/
theorem c9_counterexample_worker_env_not_updated :
    envLookup (createServerEnvStep (spawnWorker []) [("TOKEN", some "v1")]).procEnv
        "TOKEN" = some "v1" ∧
    envLookup (createServerEnvStep (spawnWorker []) [("TOKEN", some "v1")]).workerEnv
        "TOKEN" = none := by
  decide

/-- C9 (amended): for every session created with an env mapping from the Auth
Resolver, each non-null entry of the mapping is written into the
process-wide environment at session-creation time; the upstream worker,
spawned once at start-up with a copy of the then-current environment, does
not see these writes (its environment is unchanged by session creation). -/
theorem c9_amended_env_written_to_process_not_worker (st : ProxyState)
    (env : List (String × Option String)) (k v : String)
    (hnd : (env.map Prod.fst).Nodup) (hm : (k, some v) ∈ env) :
    envLookup (createServerEnvStep st env).procEnv k = some v ∧
    (createServerEnvStep st env).workerEnv = st.workerEnv :=
  ⟨applyEnvEntries_lookup_mem env st.procEnv k v hnd hm, rfl⟩

/-- Witness for C9 (amended): the non-null entry `B=1` is written to
`process.env` while the null entry `C` is skipped and the worker keeps the
environment it was spawned with. -/
theorem c9_amended_env_written_to_process_not_worker_witness :
    envLookup (createServerEnvStep (spawnWorker [("A", "0")])
        [("B", some "1"), ("C", none)]).procEnv "B" = some "1" ∧
    (createServerEnvStep (spawnWorker [("A", "0")])
        [("B", some "1"), ("C", none)]).workerEnv = [("A", "0")] :=
  ⟨(c9_amended_env_written_to_process_not_worker (spawnWorker [("A", "0")])
      [("B", some "1"), ("C", none)] "B" "1" (by decide) (by decide)).1,
   (c9_amended_env_written_to_process_not_worker (spawnWorker [("A", "0")])
      [("B", some "1"), ("C", none)] "B" "1" (by decide) (by decide)).2⟩

end MCPProxy
